import Mathlib

/-!
Verification of the astrolabe test-execution engine (`astrolabe/atlas_runner.py`).

The Python source is shallowly embedded: each method whose behaviour we verify
becomes a pure Lean function.  Remote interactions (cluster-state fetches,
restart requests, project deletions, ...) are passed in as explicit finite
traces of outcomes: one trace element per call the Python code would make, so
a polling loop that runs until its timeout corresponds to recursion over the
trace of fetches that fit inside the timeout window, and exhausting the trace
corresponds to the timer expiring.  Exceptions are modelled as explicit result
constructors.  Python string primitives (`str.lower`, `str.split`,
`str.startswith`, `str.isnumeric`, `int(...)`) are re-implemented below over
`List Char` so that all definitions evaluate inside the kernel.
-/

namespace Astrolabe

/-! ### Python string primitives -/

/-- `str.lower` for one ASCII character (maps `A`..`Z` to `a`..`z`). -/
def charLower (c : Char) : Char :=
  if c.toNat ≥ 65 ∧ c.toNat ≤ 90 then Char.ofNat (c.toNat + 32) else c

/-- Python `s.lower()` (ASCII range, which covers Atlas state names). -/
def strLower (s : String) : String := String.mk (s.data.map charLower)

/-- Python `s.startswith(p)`. -/
def strStartsWith (s p : String) : Bool := p.data.isPrefixOf s.data

/-- Helper for `splitOnDash`: accumulates the current segment in reverse. -/
def splitOnDashAux : List Char → List Char → List String
  | [], acc => [String.mk acc.reverse]
  | c :: rest, acc =>
      if c = '-' then String.mk acc.reverse :: splitOnDashAux rest []
      else splitOnDashAux rest (c :: acc)

/-- Python `s.split("-")`: always returns at least one segment. -/
def splitOnDash (s : String) : List String := splitOnDashAux s.data []

/-- Decimal-digit test for one character. -/
def isDigitChar (c : Char) : Bool := 48 ≤ c.toNat ∧ c.toNat ≤ 57

/-- Python `s.isnumeric()` restricted to decimal digits (the only numeric
characters that occur in generated project names). -/
def isNumericStr (s : String) : Bool := !s.data.isEmpty && s.data.all isDigitChar

/-- Python `int(s)` for a string of decimal digits. -/
def digitsToNat (s : String) : Nat :=
  s.data.foldl (fun acc c => acc * 10 + (c.toNat - 48)) 0

/-! ### Workload statistics and the verdict (AtlasTestCase.run, steps 5-6)

`stats = self.workload_runner.stop()` yields counters `numErrors`,
`numFailures`, `numSuccesses`; they are counts, hence `Nat`. -/

/-- The statistics record returned by the workload executor. -/
structure WorkloadStats where
  numErrors : Nat
  numFailures : Nat
  numSuccesses : Nat
deriving DecidableEq, Repr

/-- `failure = (stats["numErrors"] != 0 or stats["numFailures"] != 0 or
stats["numSuccesses"] == 0)` from `AtlasTestCase.run`. -/
def workloadFailure (s : WorkloadStats) : Bool :=
  s.numErrors != 0 || s.numFailures != 0 || s.numSuccesses == 0

/-- `if failure != self.expect_failure: self.failed = True` — the test case is
marked failed exactly when the observed failure flag differs from
`expect_failure`. -/
def verdictFailed (s : WorkloadStats) (expectFailure : Bool) : Bool :=
  workloadFailure s != expectFailure

/-! ### wait_for_state (AtlasTestCase.wait_for_state)

Each loop iteration performs one `self.cluster_url.get()`.  A trace element is
that call's outcome: `fetchErr` models an `AtlasClientError` (caught, logged,
`continue`), `fetched s` models a successful fetch whose `stateName` is `s`.
The trace holds exactly the fetches that start while `timer.elapsed <
timeout`; an exhausted trace is the timer expiring.  The `Option String`
accumulator is the Python local `actual_state`, unassigned (`none`) until the
first successful fetch. -/

/-- Outcome of one `cluster_url.get()` poll. -/
inductive FetchOutcome where
  | fetchErr
  | fetched (stateName : String)
deriving DecidableEq, Repr

/-- How `wait_for_state` exits. -/
inductive WaitResult where
  /-- `ok = True; break`: the target state was observed. -/
  | reached
  /-- `raise PollingTimeoutError(... % actual_state ...)` with the last
  observed (lowercased) state. -/
  | pollingTimeout (lastState : String)
  /-- the timeout branch reads `actual_state` although no fetch ever
  succeeded, so the local is unbound and a `NameError` is raised. -/
  | nameError
deriving DecidableEq, Repr

/-- The polling loop of `wait_for_state`, with `last` playing the role of the
`actual_state` local. -/
def waitForStateLoop (target : String) : List FetchOutcome → Option String → WaitResult
  | [], none => .nameError
  | [], some s => .pollingTimeout s
  | .fetchErr :: rest, last => waitForStateLoop target rest last
  | .fetched s :: rest, _ =>
      if strLower s == target then .reached
      else waitForStateLoop target rest (some (strLower s))

/-- `AtlasTestCase.wait_for_state(target_state)` over a trace of fetches. -/
def wait_for_state (target : String) (polls : List FetchOutcome) : WaitResult :=
  waitForStateLoop target polls none

/-- `AtlasTestCase.wait_for_updating`. -/
def wait_for_updating (polls : List FetchOutcome) : WaitResult :=
  wait_for_state "updating" polls

/-- `AtlasTestCase.wait_for_idle`. -/
def wait_for_idle (polls : List FetchOutcome) : WaitResult :=
  wait_for_state "idle" polls

/-- The two-phase wait shared by the `setClusterConfiguration` and
`restartVms` operations: after pushing the change, `self.wait_for_updating()`
and then `self.wait_for_idle()`; an exception from the first wait propagates
and the second never runs. -/
def maintenanceWait (updatingPolls idlePolls : List FetchOutcome) : WaitResult :=
  match wait_for_updating updatingPolls with
  | .reached => wait_for_idle idlePolls
  | r => r

/-! ### wait_for_planning (AtlasTestCase.wait_for_planning)

Each iteration performs one fetch of the private `nds` group endpoint and
parses `data["lastPlanningDate"]`.  Unlike `wait_for_state`, that fetch is
NOT wrapped in a try/except, so a client error propagates out of the loop.
Planning times and `start_time` are modelled as integers (epoch seconds). -/

/-- Outcome of one admin-endpoint fetch inside `wait_for_planning`. -/
inductive PlanFetch where
  | fetchErr
  | fetched (lastPlanningDate : Int)
deriving DecidableEq, Repr

/-- How `wait_for_planning` exits. -/
inductive PlanResult where
  /-- `ok = True; break`: a planning event newer than `start_time` was seen. -/
  | reached
  /-- `raise PollingTimeoutError("Timed out waiting for planning after %s
  seconds" % timeout)` — the message carries only the timeout value. -/
  | pollingTimeout (timeout : Nat)
  /-- the un-guarded fetch raised and the exception propagated. -/
  | raisedClientError
deriving DecidableEq, Repr

/-- `AtlasTestCase.wait_for_planning(start_time)` over a trace of fetches. -/
def wait_for_planning (startTime : Int) (timeout : Nat) :
    List PlanFetch → PlanResult
  | [] => .pollingTimeout timeout
  | .fetchErr :: _ => .raisedClientError
  | .fetched t :: rest =>
      if t > startTime then .reached else wait_for_planning startTime timeout rest

/-! ### testFailover's restart-retry loop (AtlasTestCase.run)

Each trace element is one `self.cluster_url["restartPrimaries"].post()`
together with the value of `timer.elapsed` at the `timer.elapsed > timeout`
check performed after a failed call (the timer was started before the 5 s
clock-drift sleep, so elapsed includes it). -/

/-- Outcome of one `restartPrimaries` POST. -/
inductive RestartOutcome where
  | posted
  | apiError (errorCode : String)
deriving DecidableEq, Repr

/-- How the restart-retry loop exits; `calls` counts issued POST requests. -/
inductive FailoverResult where
  /-- `break`: the POST succeeded and the operation proceeds. -/
  | proceeded (calls : Nat)
  /-- an `AtlasApiError` other than `CLUSTER_RESTART_INVALID` was re-raised. -/
  | raised (errorCode : String) (calls : Nat)
  /-- `raise PollingTimeoutError("Could not test failover as cluster wasn't
  ready")`. -/
  | pollingTimeout (calls : Nat)
  /-- artifact of the finite trace: the `while True` loop would keep going. -/
  | ranOut
deriving DecidableEq, Repr

/-- The `while True` retry loop of the `testFailover` branch. -/
def restartPrimariesLoop (timeout : Nat) :
    List (RestartOutcome × Nat) → Nat → FailoverResult
  | [], _ => .ranOut
  | (o, elapsed) :: rest, calls =>
      match o with
      | .posted => .proceeded (calls + 1)
      | .apiError c =>
          if c ≠ "CLUSTER_RESTART_INVALID" then .raised c (calls + 1)
          else if elapsed > timeout then .pollingTimeout (calls + 1)
          else restartPrimariesLoop timeout rest (calls + 1)

/-- The restart loop as run by `testFailover`, with its `timeout = 300`. -/
def testFailoverRestartLoop (trace : List (RestartOutcome × Nat)) : FailoverResult :=
  restartPrimariesLoop 300 trace 0

/-! ### run after spawn: try/finally cleanup (AtlasTestCase.run)

After `self.workload_runner.spawn(...)` everything — the operation loop, the
settle sleep, `stop()`, the verdict, the optional cluster deletion and the
`return junit_test` — sits inside `try: ... finally:
self.workload_runner.terminate()`.  Operations and the deletion are abstracted
to their observable outcome: completed, or raised some exception. -/

/-- State of the workload subprocess handle. -/
structure ProcState where
  terminated : Bool
deriving DecidableEq, Repr

/-- `self.workload_runner.terminate()`. -/
def terminateWorkload (s : ProcState) : ProcState := { s with terminated := true }

/-- Python `try: body finally: fin`: `fin` runs on the state whether `body`
returned or raised, and `body`'s outcome is then propagated unchanged. -/
def tryFinally {α : Type} (body : Except String α) (fin : ProcState → ProcState)
    (s : ProcState) : Except String α × ProcState :=
  (body, fin s)

/-- The `for operation in self.spec.operations` loop: each element is `none`
when that operation completes and `some e` when it raises `e`; the first
raising operation aborts the loop. -/
def execOperations : List (Option String) → Option String
  | [] => none
  | none :: rest => execOperations rest
  | some e :: _ => some e

/-- Body of the `try` block of `run`: run the operations, then compute the
verdict from the workload statistics, then (unless `persist_cluster`) request
cluster deletion; returns the `failed` flag recorded on the junit entry. -/
def runTryBody (ops : List (Option String)) (stats : WorkloadStats)
    (expectFailure : Bool) (persistCluster : Bool) (deleteResult : Option String) :
    Except String Bool :=
  match execOperations ops with
  | some e => .error e
  | none =>
      let failed := verdictFailed stats expectFailure
      if persistCluster then .ok failed
      else
        match deleteResult with
        | some e => .error e
        | none => .ok failed

/-- `AtlasTestCase.run` from the point the workload process has been spawned
(`terminated := false`) to the method's exit. -/
def runAfterSpawn (ops : List (Option String)) (stats : WorkloadStats)
    (expectFailure : Bool) (persistCluster : Bool) (deleteResult : Option String) :
    Except String Bool × ProcState :=
  tryFinally (runTryBody ops stats expectFailure persistCluster deleteResult)
    terminateWorkload { terminated := false }

/-! ### The scheduler (SpecTestRunnerBase.run)

A case is reduced to its id and the `failed` flag its `run` leaves behind.
The action log records, in order, the calls the scheduler makes. -/

/-- One discovered test case, as the scheduler sees it. -/
structure CaseModel where
  id : String
  failed : Bool
deriving DecidableEq, Repr

/-- Observable scheduler calls, in program order. -/
inductive SchedulerAction where
  | initCase (id : String)
  | waitForIdle (id : String)
  | runCase (id : String)
  | writeReport (id : String)
deriving DecidableEq, Repr

/-- The `while remaining_test_cases:` loop: pop the first remaining case, wait
for its cluster to be idle, run it, write its xunit report, update `all_ok`. -/
def schedulerLoop : List CaseModel → Bool → List SchedulerAction →
    Bool × List SchedulerAction
  | [], allOk, log => (allOk, log)
  | c :: rest, allOk, log =>
      schedulerLoop rest (if c.failed then false else allOk)
        (log ++ [.waitForIdle c.id, .runCase c.id, .writeReport c.id])

/-- `SpecTestRunnerBase.run`: `initialize` every case first, then the
round-robin loop; the source ends with `return not all_ok`. -/
def runnerRun (cases : List CaseModel) : Bool × List SchedulerAction :=
  let initLog := cases.map (fun c => SchedulerAction.initCase c.id)
  let r := schedulerLoop cases true initLog
  (!r.1, r.2)

/-! ### clean_old_projects (SpecTestRunnerBase.clean_old_projects)

`project_timestamp = project.name.split("-")[-2]`, falling back to
`[-1]` when the index raises (i.e. when the name has no hyphen); the project
is deleted when the name starts with the configured base name, the segment is
numeric, and `int(segment) < current_timestamp - threshold`. -/

/-- `try: name.split("-")[-2] except: name.split("-")[-1]` — `split` always
returns at least one segment, so `[-2]` raises exactly when there is no
hyphen, and the fallback `[-1]` is then the whole name. -/
def projectTimestampSegment (name : String) : String :=
  let parts := splitOnDash name
  if parts.length ≥ 2 then parts.getD (parts.length - 2) ""
  else parts.getD (parts.length - 1) ""

/-- `project_timestamp.isnumeric() and int(project_timestamp) <
current_timestamp - self.project_expiration_threshold_seconds`. -/
def projectExpired (currentTimestamp threshold : Int) (name : String) : Bool :=
  let ts := projectTimestampSegment name
  isNumericStr ts && ((digitsToNat ts : Int) < currentTimestamp - threshold)

/-- `self.project_expiration_threshold_seconds = 2 * 60 * 60`. -/
def project_expiration_threshold_seconds : Int := 2 * 60 * 60

/-- What `delete_project` would do for one project. -/
inductive DeleteOutcome where
  | deleted
  | apiError (errorCode : String)
deriving DecidableEq, Repr

/-- One project listed under the organization, with the outcome its deletion
request would have. -/
structure ProjectRec where
  name : String
  pid : String
  deleteOutcome : DeleteOutcome
deriving DecidableEq, Repr

/-- How `clean_old_projects` exits; the id lists record the projects for which
`delete_project` was invoked, in order. -/
inductive CleanResult where
  | finished (deletedIds : List String)
  | raised (errorCode : String) (deletedIds : List String)
deriving DecidableEq, Repr

/-- `SpecTestRunnerBase.clean_old_projects`: iterate the listed projects; for
a name starting with the base name whose embedded timestamp is expired, call
`delete_project`; a `GROUP_NOT_FOUND` error is swallowed (warning only), any
other `AtlasApiError` re-raises and aborts the loop. -/
def clean_old_projects (baseName : String) (currentTimestamp threshold : Int) :
    List ProjectRec → List String → CleanResult
  | [], deletedIds => .finished deletedIds
  | p :: rest, deletedIds =>
      if strStartsWith p.name baseName then
        if projectExpired currentTimestamp threshold p.name then
          match p.deleteOutcome with
          | .deleted =>
              clean_old_projects baseName currentTimestamp threshold rest
                (deletedIds ++ [p.pid])
          | .apiError c =>
              if c == "GROUP_NOT_FOUND" then
                clean_old_projects baseName currentTimestamp threshold rest
                  (deletedIds ++ [p.pid])
              else .raised c deletedIds
        else clean_old_projects baseName currentTimestamp threshold rest deletedIds
      else clean_old_projects baseName currentTimestamp threshold rest deletedIds

/-- A listed project is eligible for deletion: base-name match plus expired
embedded timestamp. -/
def projectEligible (baseName : String) (currentTimestamp threshold : Int)
    (p : ProjectRec) : Bool :=
  strStartsWith p.name baseName && projectExpired currentTimestamp threshold p.name

/-! ### initialize (AtlasTestCase.initialize)

The remote interactions are the `no_create` existence/config check, the
cluster-create POST, the re-configure PATCH taken on a duplicate-name
conflict, and the processArgs PATCH.  Each is abstracted to its outcome. -/

/-- Outcome of the `no_create` check (`cluster_url.get()` +
`verify_cluster_configuration_matches`): the cluster exists with matching
configuration; it exists but the configuration assertion failed; or the GET
raised an `AtlasApiError` (any code — both `CLUSTER_NOT_FOUND` and others
fall through to creation, they differ only in logging). -/
inductive GetCheckOutcome where
  | configMatches
  | configMismatch
  | apiError (errorCode : String)
deriving DecidableEq, Repr

/-- Outcome of `clusters.post(**cluster_config)`. -/
inductive PostOutcome where
  | created
  | apiError (errorCode : String)
deriving DecidableEq, Repr

/-- The remote world `initialize` acts on: outcomes of the four possible
remote calls, plus whether the spec carries a processArgs overlay.
`patchErr`/`processArgsErr` are `some code` when that PATCH would raise. -/
structure InitWorld where
  check : GetCheckOutcome
  post : PostOutcome
  patchErr : Option String
  processArgsErr : Option String
  hasProcessArgs : Bool
deriving DecidableEq, Repr

/-- Remote mutation requests issued by `initialize`, in order. `withName`
records whether the request body still contains the `name` field. -/
inductive InitAction where
  | createCluster (withName : Bool)
  | patchCluster (withName : Bool)
  | patchProcessArgs
deriving DecidableEq, Repr

/-- How `initialize` exits. -/
inductive InitResult where
  /-- the `no_create` early `return`: nothing was created or modified. -/
  | reusedExisting
  | initialized (actions : List InitAction)
  | raised (errorCode : String) (actions : List InitAction)
deriving DecidableEq, Repr

/-- `if process_args: ...processArgs.patch(**process_args)` after the cluster
has been created or re-configured. -/
def applyProcessArgs (w : InitWorld) (actions : List InitAction) : InitResult :=
  if w.hasProcessArgs then
    match w.processArgsErr with
    | some c => .raised c actions
    | none => .initialized (actions ++ [.patchProcessArgs])
  else .initialized actions

/-- `AtlasTestCase.initialize(no_create)`.  The POST always sends the config
with `name` set (`cluster_config["name"] = self.cluster_name`); on
`DUPLICATE_CLUSTER_NAME` the config is re-sent as a PATCH after
`cluster_config.pop("name")`; any other POST error re-raises. -/
def clusterInit (noCreate : Bool) (w : InitWorld) : InitResult :=
  if noCreate && w.check == GetCheckOutcome.configMatches then
    .reusedExisting
  else
    match w.post with
    | .created => applyProcessArgs w [.createCluster true]
    | .apiError c =>
        if c == "DUPLICATE_CLUSTER_NAME" then
          match w.patchErr with
          | some c2 => .raised c2 [.createCluster true]
          | none => applyProcessArgs w [.createCluster true, .patchCluster false]
        else .raised c [.createCluster true]

/-! ### assertPrimaryRegion (AtlasTestCase.run)

`windowRegions` lists the primary's tagged region observed at each loop
iteration that begins while `timer.elapsed < timeout` (5 s sleep between
iterations); `finalRegion` is the region observed by the single re-check
performed after the 30-minute `log_cluster_status(timeout=1800)` diagnostic
phase.  `log_cluster_status` only logs; it does not affect the verdict. -/

/-- How the `assertPrimaryRegion` branch exits. -/
inductive AssertRegionResult where
  /-- `ok = True; break` after `checks` in-window region reads. -/
  | succeededInWindow (checks : Nat)
  /-- the window elapsed, but the single post-diagnostic re-check matched. -/
  | succeededAfterDiagnostic
  /-- `raise Exception("Primary node ... still not in expected region ...")`. -/
  | raisedRegionError
deriving DecidableEq, Repr

/-- The `while timer.elapsed < timeout` polling loop: returns the number of
reads consumed when the expected region is seen, `none` on window
exhaustion. -/
def regionPollLoop (expected : String) : List String → Nat → Option Nat
  | [], _ => none
  | r :: rest, n =>
      if expected == r then some (n + 1) else regionPollLoop expected rest (n + 1)

/-- The `assertPrimaryRegion` operation. -/
def assertPrimaryRegion (expected : String) (windowRegions : List String)
    (finalRegion : String) : AssertRegionResult :=
  match regionPollLoop expected windowRegions 0 with
  | some n => .succeededInWindow n
  | none =>
      if expected != finalRegion then .raisedRegionError
      else .succeededAfterDiagnostic

/-! ## Helper lemmas -/

/-- If the `wait_for_state` loop reports `reached`, some successful fetch in
the trace lowercased to the target state. -/
theorem waitForStateLoop_reached_mem (target : String) :
    ∀ (polls : List FetchOutcome) (last : Option String),
      waitForStateLoop target polls last = WaitResult.reached →
      ∃ s, FetchOutcome.fetched s ∈ polls ∧ strLower s = target := by
  intro polls
  induction polls with
  | nil => intro last h; cases last <;> simp [waitForStateLoop] at h
  | cons o rest ih =>
      intro last h
      cases o with
      | fetchErr =>
          obtain ⟨s, hs, ht⟩ := ih last h
          exact ⟨s, List.mem_cons_of_mem _ hs, ht⟩
      | fetched s =>
          cases hc : (strLower s == target) with
          | true =>
              exact ⟨s, List.mem_cons_self _ _, by simpa using hc⟩
          | false =>
              have h2 : waitForStateLoop target (FetchOutcome.fetched s :: rest) last
                  = waitForStateLoop target rest (some (strLower s)) := by
                simp [waitForStateLoop, hc]
              obtain ⟨t, hs, ht⟩ := ih _ (h2 ▸ h)
              exact ⟨t, List.mem_cons_of_mem _ hs, ht⟩

/-- If every fetch in the trace raised, the loop finishes with the
`actual_state` local never assigned. -/
theorem waitForStateLoop_all_err (target : String) :
    ∀ polls : List FetchOutcome,
      (∀ o ∈ polls, o = FetchOutcome.fetchErr) →
      waitForStateLoop target polls none = WaitResult.nameError := by
  intro polls
  induction polls with
  | nil => intro _; rfl
  | cons o rest ih =>
      intro hall
      have ho : o = FetchOutcome.fetchErr := hall o (List.mem_cons_self o rest)
      subst ho
      exact ih (fun x hx => hall x (List.mem_cons_of_mem _ hx))

/-! ## Claims -/

/-- Claim C1: `run` computes `failure := numErrors ≠ 0 ∨ numFailures ≠ 0 ∨
numSuccesses = 0` and marks the case failed iff `failure` differs from
`expectFailure`; with `expectFailure = true`, a failing verdict implies no
errors, no failures and at least one success. -/
theorem C1_verdict (s : WorkloadStats) (ef : Bool) :
    (verdictFailed s ef = (workloadFailure s != ef))
    ∧ (verdictFailed s true = true →
        s.numErrors = 0 ∧ s.numFailures = 0 ∧ 0 < s.numSuccesses) := by
  refine ⟨rfl, ?_⟩
  intro h
  simp [verdictFailed, workloadFailure] at h
  omega

/-- Witness for C1 at `stats = {numErrors := 0, numFailures := 0,
numSuccesses := 42}`, `expectFailure = true`. -/
theorem C1_verdict_witness :
    verdictFailed ⟨0, 0, 42⟩ true = true
    ∧ ((⟨0, 0, 42⟩ : WorkloadStats).numErrors = 0
        ∧ (⟨0, 0, 42⟩ : WorkloadStats).numFailures = 0
        ∧ 0 < (⟨0, 0, 42⟩ : WorkloadStats).numSuccesses) :=
  ⟨by decide, (C1_verdict ⟨0, 0, 42⟩ true).2 (by decide)⟩

/-- Counterexample to claim C2 as stated: a control plane answering `idle` on
every poll after the request is NOT accepted — `wait_for_updating` exhausts
its polling window and the operation fails with a `PollingTimeoutError`, so
the "already-applied case" of the claim is false. -/
theorem C2_counterexample :
    maintenanceWait [FetchOutcome.fetched "idle", FetchOutcome.fetched "idle"]
        [FetchOutcome.fetched "idle"] = WaitResult.pollingTimeout "idle"
    ∧ maintenanceWait [FetchOutcome.fetched "idle", FetchOutcome.fetched "idle"]
        [FetchOutcome.fetched "idle"] ≠ WaitResult.reached := by decide

/-- Claim C2 (amended): for `setClusterConfiguration` and `restartVms`,
success requires that the poller observed `updating` (at least one successful
fetch lowercasing to `"updating"`) before the `idle` wait; a control plane
that returns `idle` on every poll is rejected (it times out in the `updating`
wait), and one that returns `idle`, then `updating`, then `idle` passes. -/
theorem C2_two_phase_wait :
    (∀ u i, maintenanceWait u i = WaitResult.reached →
        ∃ s, FetchOutcome.fetched s ∈ u ∧ strLower s = "updating")
    ∧ (∀ u i, (∀ o ∈ u, o = FetchOutcome.fetched "idle") →
        maintenanceWait u i ≠ WaitResult.reached)
    ∧ maintenanceWait [FetchOutcome.fetched "idle", FetchOutcome.fetched "updating"]
        [FetchOutcome.fetched "idle"] = WaitResult.reached := by
  have key : ∀ u i, maintenanceWait u i = WaitResult.reached →
      ∃ s, FetchOutcome.fetched s ∈ u ∧ strLower s = "updating" := by
    intro u i h
    unfold maintenanceWait at h
    rcases hW : wait_for_updating u with _ | s | _ <;> rw [hW] at h
    · exact waitForStateLoop_reached_mem "updating" u none hW
    · exact absurd h (by simp)
    · exact absurd h (by simp)
  refine ⟨key, ?_, by decide⟩
  intro u i hall h
  obtain ⟨s, hmem, hlow⟩ := key u i h
  have hs : FetchOutcome.fetched s = FetchOutcome.fetched "idle" := hall _ hmem
  cases hs
  exact absurd hlow (by decide)

/-- Witness for C2 (amended): the always-`idle` stub is rejected and the
`idle`, `updating`, `idle` stub passes. -/
theorem C2_two_phase_wait_witness :
    maintenanceWait [FetchOutcome.fetched "idle"] [] ≠ WaitResult.reached
    ∧ maintenanceWait [FetchOutcome.fetched "idle", FetchOutcome.fetched "updating"]
        [FetchOutcome.fetched "idle"] = WaitResult.reached :=
  ⟨C2_two_phase_wait.2.1 [FetchOutcome.fetched "idle"] [] (by decide),
   C2_two_phase_wait.2.2⟩

/-- Counterexample to claim C6 as stated: in `wait_for_planning` a transient
fetch error is NOT treated as "not yet satisfied" — it aborts the poll and
propagates, even though the next fetch would have satisfied the wait. -/
theorem C6_counterexample :
    wait_for_planning 0 300 [PlanFetch.fetchErr, PlanFetch.fetched 1]
      = PlanResult.raisedClientError
    ∧ wait_for_planning 0 300 [PlanFetch.fetchErr, PlanFetch.fetched 1]
      ≠ PlanResult.reached := by decide

/-- Claim C6 (amended): in `wait_for_state` a transient fetch error is
tolerated and consumes one iteration, and the timeout error carries the last
observed state; in `wait_for_planning` a transient fetch error propagates
immediately, and its timeout error carries only the configured timeout. -/
theorem C6_transient_fetch_errors :
    (∀ (target : String) (rest : List FetchOutcome),
        wait_for_state target (FetchOutcome.fetchErr :: rest)
          = wait_for_state target rest)
    ∧ (∀ (target s : String),
        waitForStateLoop target [] (some s) = WaitResult.pollingTimeout s)
    ∧ (∀ (startTime : Int) (timeout : Nat) (rest : List PlanFetch),
        wait_for_planning startTime timeout (PlanFetch.fetchErr :: rest)
          = PlanResult.raisedClientError) :=
  ⟨fun _ _ => rfl, fun _ _ => rfl, fun _ _ _ => rfl⟩

/-- Claim C10: if every fetch over the whole polling window fails, the
timeout branch of `wait_for_state` reads the never-assigned `actual_state`
local, so the call ends in a `NameError`, not a `PollingTimeoutError`. -/
theorem C10_name_error (target : String) (polls : List FetchOutcome)
    (hall : ∀ o ∈ polls, o = FetchOutcome.fetchErr) :
    wait_for_state target polls = WaitResult.nameError
    ∧ ∀ s, wait_for_state target polls ≠ WaitResult.pollingTimeout s := by
  have h1 : wait_for_state target polls = WaitResult.nameError :=
    waitForStateLoop_all_err target polls hall
  exact ⟨h1, fun s hs => WaitResult.noConfusion (h1 ▸ hs)⟩

/-- Witness for C10 on a window of two failing fetches. -/
theorem C10_name_error_witness :
    wait_for_state "idle" [FetchOutcome.fetchErr, FetchOutcome.fetchErr]
      = WaitResult.nameError :=
  (C10_name_error "idle" [FetchOutcome.fetchErr, FetchOutcome.fetchErr]
    (by decide)).1

/-- A prefix of `CLUSTER_RESTART_INVALID` failures whose elapsed checks stay
within the timeout only advances the call counter. -/
theorem restartLoop_invalid_segment (timeout : Nat) :
    ∀ (es : List Nat) (tail : List (RestartOutcome × Nat)) (calls : Nat),
      (∀ e ∈ es, ¬ e > timeout) →
      restartPrimariesLoop timeout
        (es.map (fun e => (RestartOutcome.apiError "CLUSTER_RESTART_INVALID", e))
          ++ tail) calls
        = restartPrimariesLoop timeout tail (calls + es.length) := by
  intro es
  induction es with
  | nil => intro tail calls _; simp
  | cons e rest ih =>
      intro tail calls hall
      have he : ¬ e > timeout := hall e (List.mem_cons_self e rest)
      simp only [List.map_cons, List.cons_append, restartPrimariesLoop, ne_eq,
        not_true_eq_false, if_false, if_neg he, List.append_eq]
      rw [ih tail (calls + 1) (fun x hx => hall x (List.mem_cons_of_mem _ hx))]
      congr 1
      simp [List.length_cons]
      omega

/-- Claim C3: with N consecutive `CLUSTER_RESTART_INVALID` failures (elapsed
under 300 s at each check) followed by a success, the restart request is
issued exactly N+1 times before `testFailover` proceeds; if the error
persists, the loop raises a timeout once elapsed exceeds 300 s; any other
error code re-raises immediately, regardless of later outcomes. -/
theorem C3_failover_retry :
    (∀ (es : List Nat) (t : Nat), (∀ e ∈ es, e < 300) →
        testFailoverRestartLoop
          (es.map (fun e => (RestartOutcome.apiError "CLUSTER_RESTART_INVALID", e))
            ++ [(RestartOutcome.posted, t)])
          = FailoverResult.proceeded (es.length + 1))
    ∧ (∀ (es : List Nat) (e : Nat) (tail : List (RestartOutcome × Nat)),
        (∀ x ∈ es, x < 300) → e > 300 →
        testFailoverRestartLoop
          (es.map (fun x => (RestartOutcome.apiError "CLUSTER_RESTART_INVALID", x))
            ++ (RestartOutcome.apiError "CLUSTER_RESTART_INVALID", e) :: tail)
          = FailoverResult.pollingTimeout (es.length + 1))
    ∧ (∀ (c : String) (e : Nat) (tail : List (RestartOutcome × Nat)) (calls : Nat),
        c ≠ "CLUSTER_RESTART_INVALID" →
        restartPrimariesLoop 300 ((RestartOutcome.apiError c, e) :: tail) calls
          = FailoverResult.raised c (calls + 1)) := by
  refine ⟨?_, ?_, ?_⟩
  · intro es t hall
    unfold testFailoverRestartLoop
    rw [restartLoop_invalid_segment 300 es [(RestartOutcome.posted, t)] 0
      (fun e he => by have := hall e he; omega)]
    simp [restartPrimariesLoop]
  · intro es e tail hall he
    unfold testFailoverRestartLoop
    rw [restartLoop_invalid_segment 300 es _ 0
      (fun x hx => by have := hall x hx; omega)]
    simp [restartPrimariesLoop, he]
  · intro c e tail calls hc
    simp [restartPrimariesLoop, hc]

/-- Witness for C3: two invalid-restart failures then success gives three
calls; an invalid failure at 301 s elapsed gives the timeout; an unrelated
error code re-raises after one call. -/
theorem C3_failover_retry_witness :
    testFailoverRestartLoop
      [(RestartOutcome.apiError "CLUSTER_RESTART_INVALID", 10),
       (RestartOutcome.apiError "CLUSTER_RESTART_INVALID", 20),
       (RestartOutcome.posted, 30)] = FailoverResult.proceeded 3
    ∧ testFailoverRestartLoop
        [(RestartOutcome.apiError "CLUSTER_RESTART_INVALID", 301)]
        = FailoverResult.pollingTimeout 1
    ∧ restartPrimariesLoop 300 [(RestartOutcome.apiError "HTTP_ERROR", 10)] 0
        = FailoverResult.raised "HTTP_ERROR" 1 :=
  ⟨C3_failover_retry.1 [10, 20] 30 (by decide),
   C3_failover_retry.2.1 [] 301 [] (by decide) (by decide),
   C3_failover_retry.2.2 "HTTP_ERROR" 10 [] 0 (by decide)⟩

/-- Claim C4: on every exit path of `run` after the workload process has been
spawned — normal completion, failing verdict, or any exception from the
operation sequence (or the cluster deletion) — the `finally` clause has
terminated the workload process, and the body's outcome (return value or
exception) is propagated unchanged. -/
theorem C4_workload_terminated (ops : List (Option String)) (stats : WorkloadStats)
    (ef persist : Bool) (del : Option String) :
    ((runAfterSpawn ops stats ef persist del).2.terminated = true)
    ∧ ((runAfterSpawn ops stats ef persist del).1
        = runTryBody ops stats ef persist del)
    ∧ (∀ e, execOperations ops = some e →
        (runAfterSpawn ops stats ef persist del).1 = Except.error e) := by
  refine ⟨rfl, rfl, ?_⟩
  intro e he
  simp [runAfterSpawn, tryFinally, runTryBody, he]

/-- Witness for C4 at an operation sequence whose second operation raises. -/
theorem C4_workload_terminated_witness :
    ((runAfterSpawn [none, some "boom"] ⟨0, 0, 1⟩ false true none).2.terminated = true)
    ∧ ((runAfterSpawn [none, some "boom"] ⟨0, 0, 1⟩ false true none).1
        = Except.error "boom") :=
  ⟨(C4_workload_terminated [none, some "boom"] ⟨0, 0, 1⟩ false true none).1,
   (C4_workload_terminated [none, some "boom"] ⟨0, 0, 1⟩ false true none).2.2
     "boom" (by decide)⟩

/-- The round-robin loop computes the conjunction of per-case successes and
appends the three per-case actions in discovery order. -/
theorem schedulerLoop_spec :
    ∀ (cs : List CaseModel) (allOk : Bool) (log : List SchedulerAction),
      schedulerLoop cs allOk log
        = (allOk && cs.all (fun c => !c.failed),
           log ++ cs.flatMap (fun c =>
             [SchedulerAction.waitForIdle c.id, SchedulerAction.runCase c.id,
              SchedulerAction.writeReport c.id])) := by
  intro cs
  induction cs with
  | nil => intro allOk log; simp [schedulerLoop]
  | cons c rest ih =>
      intro allOk log
      rw [schedulerLoop, ih]
      cases hc : c.failed <;> simp [hc, List.flatMap_cons]

/-- Counterexample to claim C5 as stated: with a single succeeding case the
logical AND of per-case successes is `true`, but `run` returns `false`
(the source ends with `return not all_ok`). -/
theorem C5_counterexample :
    (runnerRun [{ id := "t1", failed := false }]).1
      ≠ ([{ id := "t1", failed := false }] : List CaseModel).all
          (fun c => !c.failed) := by decide

/-- Claim C5 (amended): the scheduler initializes every case first, then runs
each case exactly once in discovery order (wait-idle, run, report per case),
and returns the NEGATION of the logical AND of per-case successes: `true` iff
some case failed. -/
theorem C5_scheduler (cs : List CaseModel) :
    (runnerRun cs).1 = !(cs.all fun c => !c.failed)
    ∧ (runnerRun cs).2
        = cs.map (fun c => SchedulerAction.initCase c.id)
          ++ cs.flatMap (fun c =>
              [SchedulerAction.waitForIdle c.id, SchedulerAction.runCase c.id,
               SchedulerAction.writeReport c.id]) := by
  simp only [runnerRun]
  rw [schedulerLoop_spec]
  simp

/-- When every deletion request succeeds, `clean_old_projects` deletes
exactly the eligible projects, in listing order. -/
theorem clean_old_projects_all_ok (base : String) (cur thr : Int) :
    ∀ (ps : List ProjectRec) (acc : List String),
      (∀ p ∈ ps, p.deleteOutcome = DeleteOutcome.deleted) →
      clean_old_projects base cur thr ps acc
        = CleanResult.finished
            (acc ++ (ps.filter (projectEligible base cur thr)).map (·.pid)) := by
  intro ps
  induction ps with
  | nil => intro acc _; simp [clean_old_projects]
  | cons p rest ih =>
      intro acc hall
      have hp : p.deleteOutcome = DeleteOutcome.deleted :=
        hall p (List.mem_cons_self p rest)
      have hrest : ∀ q ∈ rest, q.deleteOutcome = DeleteOutcome.deleted :=
        fun q hq => hall q (List.mem_cons_of_mem _ hq)
      cases h1 : strStartsWith p.name base with
      | false =>
          simp only [clean_old_projects, h1, if_false, Bool.false_eq_true]
          rw [ih acc hrest]
          simp [projectEligible, h1, List.filter_cons]
      | true =>
          cases h2 : projectExpired cur thr p.name with
          | false =>
              simp only [clean_old_projects, h1, if_true, h2, if_false,
                Bool.false_eq_true]
              rw [ih acc hrest]
              simp [projectEligible, h1, h2, List.filter_cons]
          | true =>
              simp only [clean_old_projects, h1, if_true, h2, hp]
              rw [ih (acc ++ [p.pid]) hrest]
              simp [projectEligible, h1, h2, List.filter_cons]

/-- Claim C7: `clean_old_projects` deletes exactly the projects whose name
starts with the configured base name and whose embedded decimal timestamp
(second-to-last hyphen-delimited segment, or the last segment when `[-2]`
cannot be extracted) is older than now minus the 2-hour threshold, retaining
every other listed project; a `GROUP_NOT_FOUND` deletion error is swallowed
and the loop continues, and any other deletion error re-raises. -/
theorem C7_clean_old_projects :
    (∀ (base : String) (cur : Int) (ps : List ProjectRec),
        (∀ p ∈ ps, p.deleteOutcome = DeleteOutcome.deleted) →
        clean_old_projects base cur project_expiration_threshold_seconds ps []
          = CleanResult.finished
              ((ps.filter
                  (projectEligible base cur project_expiration_threshold_seconds)).map
                (·.pid)))
    ∧ (∀ (base : String) (cur : Int) (p : ProjectRec) (rest : List ProjectRec)
          (acc : List String),
        projectEligible base cur project_expiration_threshold_seconds p = true →
        p.deleteOutcome = DeleteOutcome.apiError "GROUP_NOT_FOUND" →
        clean_old_projects base cur project_expiration_threshold_seconds
            (p :: rest) acc
          = clean_old_projects base cur project_expiration_threshold_seconds rest
              (acc ++ [p.pid]))
    ∧ (∀ (base : String) (cur : Int) (p : ProjectRec) (rest : List ProjectRec)
          (acc : List String) (c : String),
        projectEligible base cur project_expiration_threshold_seconds p = true →
        p.deleteOutcome = DeleteOutcome.apiError c → c ≠ "GROUP_NOT_FOUND" →
        clean_old_projects base cur project_expiration_threshold_seconds
            (p :: rest) acc
          = CleanResult.raised c acc)
    ∧ projectTimestampSegment "base-12345-suffix" = "12345"
    ∧ projectTimestampSegment "12345" = "12345" := by
  refine ⟨?_, ?_, ?_, by decide, by decide⟩
  · intro base cur ps hall
    rw [clean_old_projects_all_ok base cur project_expiration_threshold_seconds ps [] hall]
    simp
  · intro base cur p rest acc helig hdel
    obtain ⟨h1, h2⟩ := Bool.and_eq_true_iff.mp helig
    simp [clean_old_projects, h1, h2, hdel]
  · intro base cur p rest acc c helig hdel hc
    obtain ⟨h1, h2⟩ := Bool.and_eq_true_iff.mp helig
    simp [clean_old_projects, h1, h2, hdel, hc]

/-- Witness for C7: an expired matching project is deleted, a younger one and
a non-matching one are retained; an eligible project whose deletion races
(`GROUP_NOT_FOUND`) is tolerated; any other deletion error re-raises. -/
theorem C7_clean_old_projects_witness :
    clean_old_projects "astrolabe" 1000000 project_expiration_threshold_seconds
        [⟨"astrolabe-12345-suffix", "p1", DeleteOutcome.deleted⟩,
         ⟨"astrolabe-999999-x", "p2", DeleteOutcome.deleted⟩,
         ⟨"other-1-x", "p3", DeleteOutcome.deleted⟩] []
      = CleanResult.finished ["p1"]
    ∧ clean_old_projects "astrolabe" 1000000 project_expiration_threshold_seconds
        [⟨"astrolabe-12345-suffix", "p4", DeleteOutcome.apiError "GROUP_NOT_FOUND"⟩] []
      = CleanResult.finished ["p4"]
    ∧ clean_old_projects "astrolabe" 1000000 project_expiration_threshold_seconds
        [⟨"astrolabe-12345-suffix", "p5", DeleteOutcome.apiError "RATE_LIMIT"⟩,
         ⟨"astrolabe-12345-suffix", "p6", DeleteOutcome.deleted⟩] []
      = CleanResult.raised "RATE_LIMIT" [] := by
  refine ⟨?_, ?_, ?_⟩
  · rw [C7_clean_old_projects.1 "astrolabe" 1000000 _ (by decide)]
    decide
  · rw [C7_clean_old_projects.2.1 "astrolabe" 1000000 _ [] [] (by decide) (by decide)]
    decide
  · rw [C7_clean_old_projects.2.2.1 "astrolabe" 1000000 _ _ [] "RATE_LIMIT"
      (by decide) (by decide) (by decide)]

/-- Claim C8: with `no_create` and an existing, matching cluster,
`initialize` returns without creating or modifying anything; otherwise it
creates the cluster, on `DUPLICATE_CLUSTER_NAME` it instead re-configures the
existing cluster with the `name` field removed from the update and then
applies the processArgs overlay, and any other remote error from the creation
propagates. -/
theorem C8_cluster_init :
    (∀ w : InitWorld,
        clusterInit true { w with check := GetCheckOutcome.configMatches }
          = InitResult.reusedExisting)
    ∧ (∀ w : InitWorld, w.post = PostOutcome.created → w.processArgsErr = none →
        clusterInit false w
          = InitResult.initialized
              ([InitAction.createCluster true]
                ++ if w.hasProcessArgs then [InitAction.patchProcessArgs] else []))
    ∧ (∀ w : InitWorld, w.post = PostOutcome.apiError "DUPLICATE_CLUSTER_NAME" →
        w.patchErr = none → w.processArgsErr = none →
        clusterInit false w
          = InitResult.initialized
              ([InitAction.createCluster true, InitAction.patchCluster false]
                ++ if w.hasProcessArgs then [InitAction.patchProcessArgs] else []))
    ∧ (∀ (w : InitWorld) (c : String), w.post = PostOutcome.apiError c →
        c ≠ "DUPLICATE_CLUSTER_NAME" →
        clusterInit false w = InitResult.raised c [InitAction.createCluster true]) := by
  refine ⟨?_, ?_, ?_, ?_⟩
  · intro w
    simp [clusterInit]
  · intro w h1 h2
    cases hpa : w.hasProcessArgs <;>
      simp [clusterInit, h1, applyProcessArgs, h2, hpa]
  · intro w h1 h2 h3
    cases hpa : w.hasProcessArgs <;>
      simp [clusterInit, h1, h2, applyProcessArgs, h3, hpa]
  · intro w c h1 hc
    simp [clusterInit, h1, hc]

/-- Witness for C8 at four concrete remote worlds. -/
theorem C8_cluster_init_witness :
    clusterInit true ⟨GetCheckOutcome.configMatches, PostOutcome.created,
        none, none, false⟩ = InitResult.reusedExisting
    ∧ clusterInit false ⟨GetCheckOutcome.configMismatch, PostOutcome.created,
        none, none, true⟩
      = InitResult.initialized
          [InitAction.createCluster true, InitAction.patchProcessArgs]
    ∧ clusterInit false ⟨GetCheckOutcome.apiError "CLUSTER_NOT_FOUND",
        PostOutcome.apiError "DUPLICATE_CLUSTER_NAME", none, none, false⟩
      = InitResult.initialized
          [InitAction.createCluster true, InitAction.patchCluster false]
    ∧ clusterInit false ⟨GetCheckOutcome.configMismatch,
        PostOutcome.apiError "RATE_LIMIT", none, none, false⟩
      = InitResult.raised "RATE_LIMIT" [InitAction.createCluster true] := by
  refine ⟨?_, ?_, ?_, ?_⟩
  · exact C8_cluster_init.1
      ⟨GetCheckOutcome.configMatches, PostOutcome.created, none, none, false⟩
  · rw [C8_cluster_init.2.1
      ⟨GetCheckOutcome.configMismatch, PostOutcome.created, none, none, true⟩
      (by decide) (by decide)]
    decide
  · rw [C8_cluster_init.2.2.1
      ⟨GetCheckOutcome.apiError "CLUSTER_NOT_FOUND",
        PostOutcome.apiError "DUPLICATE_CLUSTER_NAME", none, none, false⟩
      (by decide) (by decide) (by decide)]
    decide
  · exact C8_cluster_init.2.2.2
      ⟨GetCheckOutcome.configMismatch, PostOutcome.apiError "RATE_LIMIT",
        none, none, false⟩ "RATE_LIMIT" (by decide) (by decide)

/-- A window whose reads never match the expected region exhausts the poll. -/
theorem regionPollLoop_mismatch (expected : String) :
    ∀ (window : List String) (n : Nat),
      (∀ r ∈ window, r ≠ expected) →
      regionPollLoop expected window n = none := by
  intro window
  induction window with
  | nil => intro n _; rfl
  | cons r rest ih =>
      intro n hall
      have hr : r ≠ expected := hall r (List.mem_cons_self r rest)
      cases hc : (expected == r) with
      | true => exact absurd (eq_of_beq hc).symm hr
      | false =>
          simp only [regionPollLoop, hc, Bool.false_eq_true, if_false]
          exact ih (n + 1) (fun x hx => hall x (List.mem_cons_of_mem _ hx))

/-- The poll stops at the first matching read. -/
theorem regionPollLoop_first_match (expected : String) :
    ∀ (pre rest : List String) (n : Nat),
      (∀ r ∈ pre, r ≠ expected) →
      regionPollLoop expected (pre ++ expected :: rest) n
        = some (n + pre.length + 1) := by
  intro pre
  induction pre with
  | nil => intro rest n _; simp [regionPollLoop]
  | cons r tl ih =>
      intro rest n hall
      have hr : r ≠ expected := hall r (List.mem_cons_self r tl)
      have hc : (expected == r) = false := by
        cases hx : (expected == r) with
        | true => exact absurd (eq_of_beq hx).symm hr
        | false => rfl
      simp only [List.cons_append, regionPollLoop, hc, Bool.false_eq_true, if_false,
        List.append_eq]
      rw [ih rest (n + 1) (fun x hx => hall x (List.mem_cons_of_mem _ hx))]
      congr 1
      simp [List.length_cons]
      omega

/-- Claim C9: `assertPrimaryRegion` succeeds at the first in-window read that
matches the expected region (later reads never happen); when no in-window
read matches, after the 30-minute diagnostic logging it re-checks exactly
once and raises the fatal error iff that single final re-check still does not
match. -/
theorem C9_assert_primary_region :
    (∀ (expected : String) (pre rest : List String) (finalRegion : String),
        (∀ r ∈ pre, r ≠ expected) →
        assertPrimaryRegion expected (pre ++ expected :: rest) finalRegion
          = AssertRegionResult.succeededInWindow (pre.length + 1))
    ∧ (∀ (expected : String) (window : List String) (finalRegion : String),
        (∀ r ∈ window, r ≠ expected) →
        assertPrimaryRegion expected window finalRegion
          = if expected != finalRegion then AssertRegionResult.raisedRegionError
            else AssertRegionResult.succeededAfterDiagnostic) := by
  constructor
  · intro expected pre rest finalRegion hall
    unfold assertPrimaryRegion
    rw [regionPollLoop_first_match expected pre rest 0 hall]
    simp
  · intro expected window finalRegion hall
    unfold assertPrimaryRegion
    rw [regionPollLoop_mismatch expected window 0 hall]

/-- Witness for C9: a match on the second in-window read succeeds after two
checks; with no in-window match the verdict is decided by the single final
re-check, in both directions. -/
theorem C9_assert_primary_region_witness :
    assertPrimaryRegion "US_EAST_1" ["US_WEST_1", "US_EAST_1", "US_WEST_1"]
        "US_WEST_1" = AssertRegionResult.succeededInWindow 2
    ∧ assertPrimaryRegion "US_EAST_1" ["US_WEST_1"] "US_EAST_1"
        = AssertRegionResult.succeededAfterDiagnostic
    ∧ assertPrimaryRegion "US_EAST_1" ["US_WEST_1"] "US_WEST_1"
        = AssertRegionResult.raisedRegionError := by
  refine ⟨?_, ?_, ?_⟩
  · exact C9_assert_primary_region.1 "US_EAST_1" ["US_WEST_1"] ["US_WEST_1"]
      "US_WEST_1" (by decide)
  · rw [C9_assert_primary_region.2 "US_EAST_1" ["US_WEST_1"] "US_EAST_1" (by decide)]
    decide
  · rw [C9_assert_primary_region.2 "US_EAST_1" ["US_WEST_1"] "US_WEST_1" (by decide)]
    decide

end Astrolabe
